import Mathlib

/-!
Formal model of the deployment orchestration core of an infrastructure-as-code
provisioning backend: per-operation status updates by the deploy and destroy
workers, batch finalization of workshop status, remote-state addressing, the
destroy fail-fast path, variable sanitization, log batching, and the process
registry used for hard cancellation.

Statuses are modelled as the literal strings the code stores; persisted records
become explicit structures, and external effects (object-store probes,
subprocess exits, persistence success) become boolean oracles threaded through
otherwise faithful control flow.
-/

namespace Elaas

/-- Terminal operation statuses, as checked by both batch finalizers
(`deployment_worker._maybe_finalize_workshop_deploy_status` and
`destroy_worker._maybe_finalize_workshop_status`):
`terminal = {"deployed", "failed", "cancelled"}`. -/
def terminalStatuses : List String := ["deployed", "failed", "cancelled"]

/-- Row of the `deployments` table as the workers see it: one apply-or-destroy
operation. Only the fields the orchestration logic reads are modelled. -/
structure Deployment where
  id : String
  templateId : String
  status : String
  errorMessage : Option String
  deriving DecidableEq, Repr

/-- Row of the `workshops` table as the workers see it. `templateGroupId` is
`none` for single-template workshops. -/
structure Workshop where
  id : String
  templateGroupId : Option String
  templateId : Option String
  status : String
  deriving DecidableEq, Repr

/-- The "current run" batch: `deployments[:current_batch_size] if
len(deployments) >= current_batch_size else deployments`, where `deployments`
is newest-first (`list_deployments_by_workshop` orders by `created_at desc`)
and the batch size is the number of template ids the workshop expands to. -/
def currentBatch (templateIds : List String) (deployments : List Deployment) :
    List Deployment :=
  if deployments.length ≥ templateIds.length then
    deployments.take templateIds.length
  else
    deployments

/-- `deployment_worker._maybe_finalize_workshop_deploy_status`, as the workshop
status it writes (`none` = no write). Single-template workshops (no
`template_group_id`) get `desired_status` immediately; group workshops get a
status only when every deployment of the current batch is terminal, `"failed"`
dominating when any member failed. -/
def maybeFinalizeWorkshopDeployStatus (workshop : Workshop)
    (templateIds : List String) (deployments : List Deployment)
    (desiredStatus : String) : Option String :=
  match workshop.templateGroupId with
  | none => some desiredStatus
  | some _ =>
      let batch := currentBatch templateIds deployments
      if batch.all (fun d => terminalStatuses.contains d.status) then
        some (if batch.any (fun d => d.status == "failed") then "failed"
              else desiredStatus)
      else
        none

/-- `destroy_worker._maybe_finalize_workshop_status`, as the workshop status it
writes (`none` = no write). Single-template workshops get `"destroyed"`
unconditionally; group workshops get `"failed"`/`"destroyed"` once the current
batch is terminal. -/
def maybeFinalizeWorkshopDestroyStatus (workshop : Workshop)
    (templateIds : List String) (deployments : List Deployment) :
    Option String :=
  match workshop.templateGroupId with
  | none => some "destroyed"
  | some _ =>
      let batch := currentBatch templateIds deployments
      if batch.all (fun d => terminalStatuses.contains d.status) then
        some (if batch.any (fun d => d.status == "failed") then "failed"
              else "destroyed")
      else
        none

/-- Remote-state key computed in `TerraformDeployer.deploy`:
`f"terraform-state/workshops/{workshop_id}/templates/{template_id}/terraform.tfstate"`. -/
def deployStateKey (workshopId templateId : String) : String :=
  "terraform-state/workshops/" ++ workshopId ++ "/templates/" ++ templateId
    ++ "/terraform.tfstate"

/-- Remote-state key computed in `TerraformDeployer.destroy` (same f-string,
written a second time at the destroy site). -/
def destroyStateKey (workshopId templateId : String) : String :=
  "terraform-state/workshops/" ++ workshopId ++ "/templates/" ++ templateId
    ++ "/terraform.tfstate"

/-- Fixed leading segment of every remote-state key. -/
def stateKeyRoot : String := "terraform-state"

/-- Fixed name of the state object stored at the key. -/
def stateObjectName : String := "terraform.tfstate"

/-- C3: the deploy path and the destroy path compute the identical remote-state
address for every `(workshop_id, template_id)` pair (both are the same pure
function of the pair), and the address decomposes as
`<root>/workshops/<workshop_id>/templates/<template_id>/<state object>` with the
fixed root `terraform-state` and fixed state-object name `terraform.tfstate`. -/
theorem stateKeyStableAcrossDeployAndDestroy (w t : String) :
    deployStateKey w t = destroyStateKey w t ∧
    deployStateKey w t =
      stateKeyRoot ++ "/workshops/" ++ w ++ "/templates/" ++ t ++ "/"
        ++ stateObjectName := by
  refine ⟨rfl, ?_⟩
  simp only [deployStateKey, stateKeyRoot, stateObjectName,
    String.append_assoc]
  rfl

/-- C1: evaluation of the destroy finalizer at the failing input. For a
single-template workshop whose only current-run destroy operation ended
`"failed"`, the finalizer writes workshop status `"destroyed"`, not
`"failed"` — the failure does not dominate on this path. -/
theorem singleDestroyFailureFinalizedAsDestroyed :
    maybeFinalizeWorkshopDestroyStatus
        { id := "w1", templateGroupId := none, templateId := some "t1",
          status := "destroying" }
        ["t1"]
        [{ id := "d1", templateId := "t1", status := "failed",
           errorMessage := some "Terraform destroy failed" }] =
      some "destroyed" ∧ "destroyed" ≠ "failed" := by
  exact ⟨rfl, by decide⟩

/-- C5 counterexample: for a single-template workshop the finalizer does not
leave the workshop status unchanged when the most recent operation is still
non-terminal — it writes the caller's desired status immediately, here
`"deployed"` while the sole current-run operation is still `"deploying"`. -/
theorem singleFinalizeWritesOnNonTerminalBatch :
    maybeFinalizeWorkshopDeployStatus
        { id := "w1", templateGroupId := none, templateId := some "t1",
          status := "deploying" }
        ["t1"]
        [{ id := "d1", templateId := "t1", status := "deploying",
           errorMessage := none }]
        "deployed" = some "deployed" ∧
    terminalStatuses.contains "deploying" = false := by
  exact ⟨rfl, by decide⟩

/-- C5 (amended): for group workshops both finalizers are guarded — they write
nothing unless every deployment of the current batch (most recent N) is
terminal — and once the batch is terminal the written status is a pure function
of the batch and the desired status (`"failed"` dominating), so repeated
invocations compute the same aggregate. -/
theorem groupFinalizeGuardedAndIdempotent (wid gid wst : String)
    (tid : Option String) (templateIds : List String)
    (deployments : List Deployment) (desired : String) :
    (((currentBatch templateIds deployments).all
        (fun d => terminalStatuses.contains d.status)) = false →
      maybeFinalizeWorkshopDeployStatus
        ⟨wid, some gid, tid, wst⟩ templateIds deployments desired = none ∧
      maybeFinalizeWorkshopDestroyStatus
        ⟨wid, some gid, tid, wst⟩ templateIds deployments = none) ∧
    (((currentBatch templateIds deployments).all
        (fun d => terminalStatuses.contains d.status)) = true →
      maybeFinalizeWorkshopDeployStatus
        ⟨wid, some gid, tid, wst⟩ templateIds deployments desired =
        some (if (currentBatch templateIds deployments).any
                  (fun d => d.status == "failed") then "failed" else desired) ∧
      maybeFinalizeWorkshopDestroyStatus
        ⟨wid, some gid, tid, wst⟩ templateIds deployments =
        some (if (currentBatch templateIds deployments).any
                  (fun d => d.status == "failed") then "failed"
              else "destroyed")) := by
  constructor
  · intro h
    refine ⟨?_, ?_⟩ <;>
    · simp only [maybeFinalizeWorkshopDeployStatus,
        maybeFinalizeWorkshopDestroyStatus]
      rw [h]
      rfl
  · intro h
    refine ⟨?_, ?_⟩ <;>
    · simp only [maybeFinalizeWorkshopDeployStatus,
        maybeFinalizeWorkshopDestroyStatus]
      rw [h]
      rfl

/-- C5 witness: concrete instantiation of the guarded-and-idempotent theorem for
a two-template group workshop, first with a non-terminal batch (no write), then
with an all-terminal batch containing a failure (writes `"failed"`). -/
theorem groupFinalizeGuardedAndIdempotent_witness :
    maybeFinalizeWorkshopDeployStatus
        ⟨"w1", some "g1", none, "deploying"⟩ ["t1", "t2"]
        [⟨"d2", "t2", "deploying", none⟩, ⟨"d1", "t1", "deployed", none⟩]
        "deployed" = none ∧
    maybeFinalizeWorkshopDeployStatus
        ⟨"w1", some "g1", none, "deploying"⟩ ["t1", "t2"]
        [⟨"d2", "t2", "failed", some "boom"⟩, ⟨"d1", "t1", "deployed", none⟩]
        "deployed" = some "failed" := by
  constructor
  · exact ((groupFinalizeGuardedAndIdempotent "w1" "g1" "deploying" none
      ["t1", "t2"]
      [⟨"d2", "t2", "deploying", none⟩, ⟨"d1", "t1", "deployed", none⟩]
      "deployed").1 (by decide)).1
  · have h := ((groupFinalizeGuardedAndIdempotent "w1" "g1" "deploying" none
      ["t1", "t2"]
      [⟨"d2", "t2", "failed", some "boom"⟩, ⟨"d1", "t1", "deployed", none⟩]
      "deployed").2 (by decide)).1
    simpa using h

/-- `DeploymentService.update_deployment_status` restricted to the fields the
workers touch: writes the given status unconditionally (the service has no
terminal-state guard) and sets the error message when one is supplied. -/
def updateDeploymentStatus (d : Deployment) (status : String)
    (errorMessage : Option String) : Deployment :=
  { d with
    status := status
    errorMessage := match errorMessage with
      | some e => some e
      | none => d.errorMessage }

/-- Outcome of a worker failure branch: the deployment record after the branch
and the workshop status the branch writes directly (`none` when the branch
instead delegates to batch finalization). -/
structure FailureOutcome where
  deployment : Deployment
  directWorkshopStatus : Option String
  finalization : Option String
  deriving DecidableEq, Repr

/-- `deploy_workshop_async` failure branch (`result["success"]` false): the
worker re-fetches the deployment; if its status was already moved to
`"cancelled"` it leaves the record untouched, reverts the workshop to
`"pending"` and returns; otherwise it writes `"failed"` with the error detail
and runs deploy batch finalization with desired status `"failed"`. -/
def deployWorkerOnFailure (fetched : Deployment) (workshop : Workshop)
    (templateIds : List String) (deploymentsAfter : List Deployment)
    (err : String) : FailureOutcome :=
  if fetched.status == "cancelled" then
    { deployment := fetched
      directWorkshopStatus := some "pending"
      finalization := none }
  else
    { deployment := updateDeploymentStatus fetched "failed" (some err)
      directWorkshopStatus := none
      finalization :=
        maybeFinalizeWorkshopDeployStatus workshop templateIds
          deploymentsAfter "failed" }

/-- `destroy_workshop_async` failure branch (`result["success"]` false): the
worker writes `"failed"` with the error detail unconditionally — there is no
re-check of a concurrently written `"cancelled"` status — and then runs destroy
batch finalization. -/
def destroyWorkerOnFailure (fetched : Deployment) (workshop : Workshop)
    (templateIds : List String) (deploymentsAfter : List Deployment)
    (err : String) : FailureOutcome :=
  { deployment := updateDeploymentStatus fetched "failed" (some err)
    directWorkshopStatus := none
    finalization :=
      maybeFinalizeWorkshopDestroyStatus workshop templateIds
        deploymentsAfter }

/-- C2 counterexample: the destroy worker overwrites a terminal status. For a
destroy operation whose status was already externally moved to `"cancelled"`
(a terminal status), the destroy worker failure branch moves it to
`"failed"`. -/
theorem destroyWorkerOverwritesCancelled :
    terminalStatuses.contains "cancelled" = true ∧
    (destroyWorkerOnFailure
        { id := "d1", templateId := "t1", status := "cancelled",
          errorMessage := none }
        { id := "w1", templateGroupId := some "g1", templateId := none,
          status := "destroying" }
        ["t1"]
        [{ id := "d1", templateId := "t1", status := "failed",
           errorMessage := some "Terraform destroy failed" }]
        "Terraform destroy failed").deployment.status = "failed" := by
  exact ⟨by decide, rfl⟩

/-- C2 (amended): cancellation precedence in the deploy worker. When the deploy
run fails and the re-fetched operation status is already `"cancelled"`, the
worker leaves the record untouched (the terminal `"cancelled"` status is never
overwritten with `"failed"`), writes no finalization, and reverts the workshop
to `"pending"`. -/
theorem deployWorkerDefersToCancelled (fetched : Deployment)
    (workshop : Workshop) (templateIds : List String)
    (deploymentsAfter : List Deployment) (err : String)
    (h : fetched.status = "cancelled") :
    (deployWorkerOnFailure fetched workshop templateIds deploymentsAfter
        err).deployment = fetched ∧
    (deployWorkerOnFailure fetched workshop templateIds deploymentsAfter
        err).deployment.status = "cancelled" ∧
    (deployWorkerOnFailure fetched workshop templateIds deploymentsAfter
        err).directWorkshopStatus = some "pending" ∧
    (deployWorkerOnFailure fetched workshop templateIds deploymentsAfter
        err).finalization = none := by
  simp [deployWorkerOnFailure, h]

/-- C2 witness: the deploy worker failure branch applied to a concrete
cancelled operation leaves it cancelled and reverts the workshop to pending. -/
theorem deployWorkerDefersToCancelled_witness :
    (deployWorkerOnFailure
        { id := "d1", templateId := "t1", status := "cancelled",
          errorMessage := none }
        { id := "w1", templateGroupId := none, templateId := some "t1",
          status := "deploying" }
        ["t1"] [] "Terraform apply failed").deployment.status = "cancelled" ∧
    (deployWorkerOnFailure
        { id := "d1", templateId := "t1", status := "cancelled",
          errorMessage := none }
        { id := "w1", templateGroupId := none, templateId := some "t1",
          status := "deploying" }
        ["t1"] [] "Terraform apply failed").directWorkshopStatus =
      some "pending" := by
  have h := deployWorkerDefersToCancelled
    { id := "d1", templateId := "t1", status := "cancelled",
      errorMessage := none }
    { id := "w1", templateGroupId := none, templateId := some "t1",
      status := "deploying" }
    ["t1"] [] "Terraform apply failed" rfl
  exact ⟨h.2.1, h.2.2.1⟩

/-- Credential-shaped variable keys stripped by
`TerraformDeployer._prepare_variables` before the variables file is written. -/
def credential_keys : List String :=
  ["aws_access_key_id", "aws_secret_access_key", "AWS_ACCESS_KEY_ID",
   "AWS_SECRET_ACCESS_KEY",
   "gcp_project_id", "gcp_service_account_key", "GOOGLE_PROJECT",
   "GOOGLE_APPLICATION_CREDENTIALS",
   "azure_subscription_id", "azure_client_id", "azure_client_secret",
   "azure_tenant_id",
   "ARM_SUBSCRIPTION_ID", "ARM_CLIENT_ID", "ARM_CLIENT_SECRET",
   "ARM_TENANT_ID",
   "mongodb_public_key", "mongodb_private_key", "MONGODB_ATLAS_PUBLIC_KEY",
   "MONGODB_ATLAS_PRIVATE_KEY",
   "snowflake_account", "snowflake_user", "snowflake_password",
   "snowflake_warehouse",
   "SNOWFLAKE_ACCOUNT", "SNOWFLAKE_USER", "SNOWFLAKE_PASSWORD",
   "SNOWFLAKE_WAREHOUSE"]

/-- `TerraformDeployer._prepare_variables`: keeps exactly the user variables
whose key is not in `credential_keys`, values unchanged. Variable maps are
modelled as ordered key-value lists (Python dicts preserve insertion order). -/
def prepareVariables (userVars : List (String × String)) :
    List (String × String) :=
  userVars.filter (fun kv => !(credential_keys.contains kv.1))

/-- Keys stripped by `workshops.routes._obfuscate_terraform_vars` before the
variables are stored on the deployment record: only the four AWS keys. -/
def awsCredentialKeys : List String :=
  ["aws_access_key_id", "aws_secret_access_key", "AWS_ACCESS_KEY_ID",
   "AWS_SECRET_ACCESS_KEY"]

/-- `workshops.routes._obfuscate_terraform_vars`: keeps exactly the variables
whose key is not one of the four AWS credential keys, values unchanged. -/
def obfuscateTerraformVars (varsDict : List (String × String)) :
    List (String × String) :=
  varsDict.filter (fun kv => !(awsCredentialKeys.contains kv.1))

/-- C6 counterexample: `azure_client_secret` is a credential-shaped key (it is
in the deployer's strip list), yet the route-side sanitizer applied before the
variables are stored on the deployment record preserves it, so it reaches
storage. -/
theorem credentialKeyReachesStoredVariables :
    credential_keys.contains "azure_client_secret" = true ∧
    obfuscateTerraformVars [("azure_client_secret", "s3cret")] =
      [("azure_client_secret", "s3cret")] := by
  exact ⟨by decide, by decide⟩

/-- C6 (amended): membership characterization of both sanitizers. The deployer
strips exactly the credential-shaped keys before the variables file is written,
and the route strips exactly the four AWS keys before storage; in both cases
every surviving key-value pair comes from the input unchanged. -/
theorem sanitizersKeepExactlyNonCredentialPairs
    (vars : List (String × String)) (kv : String × String) :
    (kv ∈ prepareVariables vars ↔
      kv ∈ vars ∧ credential_keys.contains kv.1 = false) ∧
    (kv ∈ obfuscateTerraformVars vars ↔
      kv ∈ vars ∧ awsCredentialKeys.contains kv.1 = false) := by
  constructor <;>
    simp [prepareVariables, obfuscateTerraformVars, List.mem_filter]

/-- `LOG_FLUSH_INTERVAL_SEC = 30` (both workers). -/
def logFlushIntervalSec : Nat := 30

/-- In-memory state of the batched log callback shared by both workers:
the pending buffer, the monotonic time of the last successful flush, and the
list of persistence calls that succeeded (each carrying the new lines of that
flush). Time is modelled as a monotone `Nat` clock. -/
structure LogState where
  buffer : List String
  lastFlush : Nat
  flushed : List (List String)
  deriving DecidableEq, Repr

/-- `_flush_logs` (both workers): does nothing on an empty buffer; otherwise
attempts one persistence call carrying the whole buffer. Only when the call
succeeds are the buffer cleared and the flush clock reset; on failure the error
is logged and the state is left unchanged (the buffer is not cleared). -/
def flushLogs (persistOk : Bool) (now : Nat) (s : LogState) : LogState :=
  if s.buffer = [] then s
  else if persistOk then
    { buffer := [], lastFlush := now, flushed := s.flushed ++ [s.buffer] }
  else s

/-- Python truthiness of `line.strip()`: the stripped line is empty exactly
when every character of the line is whitespace. -/
def isBlankLine (l : String) : Bool :=
  l.data.all (fun c => c.isWhitespace)

/-- `log_callback` (both workers): drops blank lines (`line.strip()` falsy),
appends the rest to the buffer, and flushes when at least
`LOG_FLUSH_INTERVAL_SEC` has elapsed since the last flush. -/
def logCallback (persistOk : Bool) (now : Nat) (lines : List String)
    (s : LogState) : LogState :=
  let filtered := lines.filter (fun l => !(isBlankLine l))
  if filtered = [] then s
  else
    let s2 := { s with buffer := s.buffer ++ filtered }
    if now - s2.lastFlush ≥ logFlushIntervalSec then flushLogs persistOk now s2
    else s2

/-- C7 counterexample: a failed flush does not clear the buffer. With one
pending line and a failing persistence call, the buffer still holds the line
after the attempted flush (the clear is reached only when the persistence call
returns without error). -/
theorem failedFlushKeepsBuffer :
    (flushLogs false 40 { buffer := ["line"], lastFlush := 0, flushed := [] }
      ).buffer = ["line"] ∧ (["line"] : List String) ≠ [] := by
  exact ⟨by decide, by decide⟩

/-- C7 (amended): the flush attempt never aborts the run (it always returns a
state); a successful flush persists exactly the buffered lines, clears the
buffer and resets the flush clock, while a failed flush is only logged and
leaves buffer, clock and persisted flushes unchanged, so the lines are retried
at the next flush. -/
theorem flushClearsBufferOnlyOnSuccess (l : String) (rest : List String)
    (t0 now : Nat) (done : List (List String)) :
    flushLogs true now { buffer := l :: rest, lastFlush := t0, flushed := done }
      = { buffer := [], lastFlush := now, flushed := done ++ [l :: rest] } ∧
    flushLogs false now
        { buffer := l :: rest, lastFlush := t0, flushed := done } =
      { buffer := l :: rest, lastFlush := t0, flushed := done } := by
  constructor <;> simp [flushLogs]

/-- C8: log batching coalesces ingestions. Starting from an empty buffer last
flushed at `t0`, two ingestions of non-blank lines at `t1` and `t2`, both
within the flush interval, trigger no flush and accumulate all lines in order;
the final flush at operation end then makes exactly one persistence call
carrying all accumulated lines and empties the buffer. -/
theorem logBatchingCoalescesIngestions (t0 t1 t2 t3 : Nat)
    (ls1 ls2 : List String)
    (h1 : t1 - t0 < logFlushIntervalSec)
    (h2 : t2 - t0 < logFlushIntervalSec)
    (hb1 : ∀ l ∈ ls1, isBlankLine l = false)
    (hb2 : ∀ l ∈ ls2, isBlankLine l = false)
    (hn1 : ls1 ≠ []) (hn2 : ls2 ≠ []) :
    (logCallback true t1 ls1
        { buffer := [], lastFlush := t0, flushed := [] }).flushed = [] ∧
    (logCallback true t2 ls2 (logCallback true t1 ls1
        { buffer := [], lastFlush := t0, flushed := [] })).buffer =
      ls1 ++ ls2 ∧
    (logCallback true t2 ls2 (logCallback true t1 ls1
        { buffer := [], lastFlush := t0, flushed := [] })).flushed = [] ∧
    (flushLogs true t3 (logCallback true t2 ls2 (logCallback true t1 ls1
        { buffer := [], lastFlush := t0, flushed := [] }))).flushed =
      [ls1 ++ ls2] ∧
    (flushLogs true t3 (logCallback true t2 ls2 (logCallback true t1 ls1
        { buffer := [], lastFlush := t0, flushed := [] }))).buffer = [] := by
  have hf1 : ls1.filter (fun l => !(isBlankLine l)) = ls1 := by
    rw [List.filter_eq_self]
    intro a ha
    simp [hb1 a ha]
  have hf2 : ls2.filter (fun l => !(isBlankLine l)) = ls2 := by
    rw [List.filter_eq_self]
    intro a ha
    simp [hb2 a ha]
  have hs1 : logCallback true t1 ls1
      { buffer := [], lastFlush := t0, flushed := [] } =
      { buffer := ls1, lastFlush := t0, flushed := [] } := by
    simp only [logCallback, hf1]
    rw [if_neg hn1, if_neg (by omega)]
    simp
  have hs2 : logCallback true t2 ls2
      { buffer := ls1, lastFlush := t0, flushed := [] } =
      { buffer := ls1 ++ ls2, lastFlush := t0, flushed := [] } := by
    simp only [logCallback, hf2]
    rw [if_neg hn2, if_neg (by omega)]
  have hne : ls1 ++ ls2 ≠ [] := by
    intro h
    exact hn1 (List.append_eq_nil.mp h).1
  rw [hs1, hs2]
  refine ⟨rfl, rfl, rfl, ?_, ?_⟩ <;> simp [flushLogs, hne]

/-- C8 witness: five non-blank lines ingested at `t = 5`, three more at
`t = 10`, both within the 30-second interval starting at `t = 0`; the single
final flush carries all eight lines. -/
theorem logBatchingCoalescesIngestions_witness :
    (flushLogs true 45 (logCallback true 10 ["f", "g", "h"]
        (logCallback true 5 ["a", "b", "c", "d", "e"]
          { buffer := [], lastFlush := 0, flushed := [] }))).flushed =
      [["a", "b", "c", "d", "e", "f", "g", "h"]] := by
  have h := logBatchingCoalescesIngestions 0 5 10 45
    ["a", "b", "c", "d", "e"] ["f", "g", "h"]
    (by decide) (by decide) (by decide) (by decide) (by decide) (by decide)
  exact h.2.2.2.1

/-- `process_registry._registry`: mapping from deployment id to the live
subprocess handle (handles abstracted as `Nat`). Modelled as an association
list with dictionary semantics (at most one entry per id). -/
abbrev ProcessRegistry := List (String × Nat)

/-- `process_registry.register`: dictionary assignment
`_registry[deployment_id] = process`. -/
def registerProcess (r : ProcessRegistry) (deploymentId : String) (p : Nat) :
    ProcessRegistry :=
  (deploymentId, p) :: r.filter (fun e => !(e.1 == deploymentId))

/-- `process_registry.unregister`: `_registry.pop(deployment_id, None)`. -/
def unregisterProcess (r : ProcessRegistry) (deploymentId : String) :
    ProcessRegistry :=
  r.filter (fun e => !(e.1 == deploymentId))

/-- `process_registry.get_process`: `_registry.get(deployment_id)`. -/
def getProcess (r : ProcessRegistry) (deploymentId : String) : Option Nat :=
  (r.find? (fun e => e.1 == deploymentId)).map Prod.snd

/-- `process_registry.terminate`: returns `false` without touching the registry
when no handle is registered for the id; otherwise terminates (or kills) the
process and always unregisters, returning `true`. -/
def terminateProcess (r : ProcessRegistry) (deploymentId : String) :
    Bool × ProcessRegistry :=
  match getProcess r deploymentId with
  | none => (false, r)
  | some _ => (true, unregisterProcess r deploymentId)

/-- Registry interactions performed by a code path, in order. -/
inductive RegistryEvent
  | registerEvt (id : String) (p : Nat)
  | unregisterEvt (id : String)
  deriving DecidableEq, Repr

/-- Replay a sequence of registry interactions on a registry. -/
def applyEvents (r : ProcessRegistry) (evts : List RegistryEvent) :
    ProcessRegistry :=
  evts.foldl
    (fun acc e =>
      match e with
      | RegistryEvent.registerEvt id p => registerProcess acc id p
      | RegistryEvent.unregisterEvt id => unregisterProcess acc id)
    r

/-- Registry interactions of the destroy path: `TerraformDeployer.destroy`
runs `_init_backend` and `_destroy_terraform` as blocking `subprocess.run`
calls and `destroy_workshop_async` never touches the registry, so the destroy
run performs no register/unregister calls at all. -/
def destroyRegistryEvents : List RegistryEvent := []

/-- Registry interactions of one apply phase in
`TerraformDeployer._apply_terraform` (and each phase of
`_apply_terraform_phased`): the spawned subprocess is registered under the
deployment id for the duration of the wait, then unregistered. -/
def applyPhaseRegistryEvents (deploymentId : String) (p : Nat) :
    List RegistryEvent :=
  [RegistryEvent.registerEvt deploymentId p,
   RegistryEvent.unregisterEvt deploymentId]

/-- C9: destroy runs are invisible to the registry. The destroy path performs
no registry interactions, so for an operation id with no registered handle a
concurrent `terminate` during the destroy run finds nothing, returns `false`
and leaves the registry unchanged — while mid-apply (after the register event
of an apply phase) `terminate` on the same id finds the handle and returns
`true`. -/
theorem destroyRunUnreachableByTerminate (r : ProcessRegistry) (opId : String)
    (p : Nat) (h : getProcess r opId = none) :
    destroyRegistryEvents = [] ∧
    applyEvents r destroyRegistryEvents = r ∧
    (terminateProcess (applyEvents r destroyRegistryEvents) opId).1 = false ∧
    (terminateProcess (applyEvents r destroyRegistryEvents) opId).2 = r ∧
    (terminateProcess (registerProcess r opId p) opId).1 = true := by
  refine ⟨rfl, rfl, ?_, ?_, ?_⟩
  · simp [applyEvents, destroyRegistryEvents, terminateProcess, h]
  · simp [applyEvents, destroyRegistryEvents, terminateProcess, h]
  · simp [terminateProcess, getProcess, registerProcess]

/-- C9 witness: with an empty registry, terminating the destroy operation
`"d1"` returns `false`, while the same id registered by an apply phase is
found. -/
theorem destroyRunUnreachableByTerminate_witness :
    (terminateProcess (applyEvents [] destroyRegistryEvents) "d1").1 = false ∧
    (terminateProcess (registerProcess [] "d1" 7) "d1").1 = true := by
  have h := destroyRunUnreachableByTerminate [] "d1" 7 rfl
  exact ⟨h.2.2.1, h.2.2.2.2⟩

/-- Abstract steps of `TerraformDeployer.destroy`, in source order. -/
inductive DestroyStep
  | extractTemplate
  | findTerraformDir
  | checkState
  | initBackend
  | createTfvars
  | runDestroy
  deriving DecidableEq, Repr

/-- Result shape returned by `TerraformDeployer.destroy`. -/
structure DestroyResult where
  success : Bool
  error : Option String
  stateKeyOut : Option String
  deriving DecidableEq, Repr

/-- `TerraformDeployer.destroy` control flow, with the external effects
abstracted as oracles: `hasTfFiles` (the extracted bundle contains `.tf`
files), `stateExists` (the S3 HEAD probe on the state key), `initOk` /
`destroyOk` (zero exit of `terraform init` / `terraform destroy`, with their
stderr). Returns the result dict together with the steps actually executed;
every raised exception is caught and turned into `success = false` with the
exception text. -/
def destroyExec (workshopId templateId : String)
    (hasTfFiles stateExists initOk destroyOk : Bool)
    (initErr destroyErr : String) : DestroyResult × List DestroyStep :=
  let steps0 := [DestroyStep.extractTemplate, DestroyStep.findTerraformDir]
  if !hasTfFiles then
    ({ success := false,
       error := some "No .tf files found in extracted template",
       stateKeyOut := none }, steps0)
  else
    let steps1 := steps0 ++ [DestroyStep.checkState]
    if !stateExists then
      ({ success := false,
         error := some ("State file not found for workshop " ++ workshopId
           ++ " template " ++ templateId
           ++ ". Cannot destroy infrastructure that doesn\x27t exist."),
         stateKeyOut := none }, steps1)
    else
      let steps2 := steps1 ++ [DestroyStep.initBackend]
      if !initOk then
        ({ success := false,
           error := some ("Terraform init failed: " ++ initErr),
           stateKeyOut := none }, steps2)
      else
        let steps3 := steps2 ++ [DestroyStep.createTfvars,
          DestroyStep.runDestroy]
        if !destroyOk then
          ({ success := false,
             error := some ("Terraform destroy error: Terraform destroy failed: "
               ++ destroyErr),
             stateKeyOut := none }, steps3)
        else
          ({ success := true, error := none,
             stateKeyOut := some (destroyStateKey workshopId templateId) },
           steps3)

/-- C4: destroy fails fast on a missing state address. Whenever the state
existence probe is negative, `destroy` returns `success = false` with the
descriptive error, and neither the backend initialization nor the destroy
sub-command is among the executed steps — so a repeated destroy against an
already-destroyed (hence absent) state address fails the same way instead of
succeeding. -/
theorem destroyFailsFastOnMissingState (w t : String)
    (initOk destroyOk : Bool) (initErr destroyErr : String) :
    (destroyExec w t true false initOk destroyOk initErr
        destroyErr).1.success = false ∧
    (destroyExec w t true false initOk destroyOk initErr destroyErr).1.error =
      some ("State file not found for workshop " ++ w ++ " template " ++ t
        ++ ". Cannot destroy infrastructure that doesn\x27t exist.") ∧
    DestroyStep.initBackend ∉
      (destroyExec w t true false initOk destroyOk initErr destroyErr).2 ∧
    DestroyStep.runDestroy ∉
      (destroyExec w t true false initOk destroyOk initErr destroyErr).2 := by
  refine ⟨rfl, rfl, ?_, ?_⟩ <;>
    simp [destroyExec]

/-- Operation statuses written by `destroy_workshop_async` over one run, in
order: `"deploying"` while the destroy executes (the comment in the source
reads: use "deploying" status for destroy operation), then `"deployed"` on
success or `"failed"` on failure. -/
def destroyWorkerStatusTrace (success : Bool) : List String :=
  ["deploying", if success then "deployed" else "failed"]

/-- `routes.get_deployment_logs`: the `has_more` flag of the logs-polling
response, `deployment.status in ["pending", "deploying"]`. -/
def hasMoreOutput (status : String) : Bool :=
  ["pending", "deploying"].contains status

/-- C10: destroy operations reuse the deploy status vocabulary at the polling
interface. A destroy run records `"deploying"` while running and `"deployed"`
on success; no distinct `destroying`/`destroyed`/`succeeded` operation status
ever appears in the trace; and the logs-polling endpoint reports more output
exactly when the status is `"pending"` or `"deploying"`, for deploy and
destroy runs alike. -/
theorem destroyReusesDeployStatusVocabulary (s : String) :
    destroyWorkerStatusTrace true = ["deploying", "deployed"] ∧
    destroyWorkerStatusTrace false = ["deploying", "failed"] ∧
    (∀ b, "destroying" ∉ destroyWorkerStatusTrace b ∧
      "destroyed" ∉ destroyWorkerStatusTrace b ∧
      "succeeded" ∉ destroyWorkerStatusTrace b) ∧
    (hasMoreOutput s = true ↔ s = "pending" ∨ s = "deploying") := by
  refine ⟨rfl, rfl, ?_, ?_⟩
  · intro b
    cases b <;> refine ⟨?_, ?_, ?_⟩ <;> decide
  · simp [hasMoreOutput]

end Elaas
